import Mathlib

/-!
Verification of the `logger` package of NovaDee/protocol.

The Go source is shallowly embedded:
* `zapcore.Level` is an `Int` (Debug = -1, Info = 0, Warn = 1, Error = 2).
* `zap.AtomicLevel` cells are mutable cells of a registry state `RegState`:
  a cell is a `Nat` identifier, the state holds the store `cells : Nat → Int`.
* `*zap.SugaredLogger` values are `Sink` records; Go pointer identity is the
  `uid` field, and every zap derivation (`With`, `Named`, `WithOptions`)
  allocates a fresh `*SugaredLogger`, so each sink-producing operation takes a
  fresh-uid counter `n : Nat` and returns the bumped counter.
* a call into the backend (`l.zap.Debugw` …) is recorded as a `Write`;
  the log methods return the list of backend writes they perform.
-/

namespace Protocol

/-- Key/value arguments (`...interface{}` in Go) and error values. -/
inductive Val where
  | str : String → Val
  | int : Int → Val
  | err : String → Val
deriving Repr, DecidableEq

/-- zapcore.DebugLevel -/
def debugLevel : Int := -1
/-- zapcore.InfoLevel -/
def infoLevel : Int := 0
/-- zapcore.WarnLevel -/
def warnLevel : Int := 1
/-- zapcore.ErrorLevel -/
def errorLevel : Int := 2

/-- zapcore.Level.unmarshalText: the recognized severity names (tried on the
exact text and, failing that, on its lowercase form). -/
def levelFromText (s : String) : Option Int :=
  match s with
  | "debug" => some debugLevel
  | "info" => some infoLevel
  | "" => some infoLevel
  | "warn" => some warnLevel
  | "error" => some errorLevel
  | "dpanic" => some 3
  | "panic" => some 4
  | "fatal" => some 5
  | _ => none

/-- ParseZapLevel: starts from Info; a non-empty string is parsed by
`UnmarshalText`, whose error is ignored (the level stays Info). -/
def ParseZapLevel (level : String) : Int :=
  if level = "" then infoLevel
  else
    match levelFromText level with
    | some l => l
    | none =>
      match levelFromText level.toLower with
      | some l => l
      | none => infoLevel

/-- The `Config` struct, as used by the logger package (fields read in
`NewZapLogger`, `newSharedConfig`, `onConfigUpdate`). Go maps are modelled
as association lists. -/
structure Config where
  json : Bool := false
  level : String := ""
  componentLevels : List (String × String) := []
  sample : Bool := false
  itemSampleSeconds : Int := 0
  itemSampleInitial : Int := 0
  itemSampleInterval : Int := 0
  sampleInterval : Int := 0

/-- The mutable state behind a `sharedConfig`: the store of AtomicLevel
cells, the id of the global `level` cell, the `componentLevels` map
(component → cell id, in insertion order) and the current config snapshot. -/
structure RegState where
  cells : Nat → Int
  nextCell : Nat
  levelCell : Nat
  componentLevels : List (String × Nat)
  config : Config

/-- Allocate a fresh AtomicLevel cell holding `v` (zap.NewAtomicLevelAt). -/
def RegState.alloc (st : RegState) (v : Int) : RegState × Nat :=
  ({ st with
      cells := fun j => if j = st.nextCell then v else st.cells j
      nextCell := st.nextCell + 1 },
   st.nextCell)

/-- AtomicLevel.SetLevel on cell `i`. -/
def RegState.setCell (st : RegState) (i : Nat) (v : Int) : RegState :=
  { st with cells := fun j => if j = i then v else st.cells j }

/-- newSharedConfig: a registry whose global cell holds the parsed
`conf.Level`, with an empty component map. -/
def newSharedConfig (conf : Config) : RegState :=
  { cells := fun j => if j = 0 then ParseZapLevel conf.level else infoLevel
    nextCell := 1
    levelCell := 0
    componentLevels := []
    config := conf }

/-- strings.Split(s, "."): split on every dot, keeping empty segments; the
empty string yields `[""]`. (Defined structurally over the characters so
that concrete instances evaluate.) -/
def splitDotAux : List Char → List Char → List String
  | [], acc => [String.mk acc.reverse]
  | c :: cs, acc =>
    if c = '.' then String.mk acc.reverse :: splitDotAux cs []
    else splitDotAux cs (c :: acc)

/-- strings.Split(component, "."). -/
def splitDot (s : String) : List String := splitDotAux s.data []

/-- The body of the ancestor-search loop shared by `setEffectiveLevel` and
`onConfigUpdate`: while parts remain, join them with "." (strings.Join),
look the result up in the configured component levels, and on a miss drop
the last part and retry. The loop runs at most `parts.length` times, which
the fuel argument makes structural. -/
def searchAncestorFuel (cfgLevels : List (String × String)) :
    Nat → List String → Option String
  | 0, _ => none
  | _, [] => none
  | fuel + 1, parts =>
    match cfgLevels.lookup (String.intercalate "." parts) with
    | some s => some s
    | none => searchAncestorFuel cfgLevels fuel parts.dropLast

/-- The ancestor search on a full segment list. -/
def searchAncestor (cfgLevels : List (String × String)) (parts : List String) :
    Option String :=
  searchAncestorFuel cfgLevels parts.length parts

/-- sharedConfig.setEffectiveLevel: return the cached cell for `component`
if present; otherwise create a cell at the current global level, cache it,
and run the ancestor search over the configured mapping, pinning the cell to
the first configured match. -/
def RegState.setEffectiveLevel (st : RegState) (component : String) :
    RegState × Nat :=
  match st.componentLevels.lookup component with
  | some cid => (st, cid)
  | none =>
    let p := st.alloc (st.cells st.levelCell)
    let st1 := p.1
    let cid := p.2
    let st2 := { st1 with componentLevels := st1.componentLevels ++ [(component, cid)] }
    match searchAncestor st.config.componentLevels (splitDot component) with
    | some s => (st2.setCell cid (ParseZapLevel s), cid)
    | none => (st2, cid)

/-- One iteration of the `onConfigUpdate` loop: recompute the level of the
cached cell `p.2` for component `p.1` against `conf`, defaulting to the
current value of the global cell. -/
def reloadStep (conf : Config) (acc : RegState) (p : String × Nat) : RegState :=
  let updateLevel :=
    match searchAncestor conf.componentLevels (splitDot p.1) with
    | some s => ParseZapLevel s
    | none => acc.cells acc.levelCell
  acc.setCell p.2 updateLevel

/-- sharedConfig.onConfigUpdate: set the global cell to the newly parsed
level, swap the config snapshot, then recompute every cached component cell
with the ancestor search against the new config. -/
def onConfigUpdate (st : RegState) (conf : Config) : RegState :=
  let st1 := st.setCell st.levelCell (ParseZapLevel conf.level)
  let st2 := { st1 with config := conf }
  st2.componentLevels.foldl (reloadStep conf) st2

/-- The specification's resolution function: the parsed level of the most
specific configured ancestor, else the parsed global default of `conf`. -/
def resolveLevelPure (conf : Config) (component : String) : Int :=
  match searchAncestor conf.componentLevels (splitDot component) with
  | some s => ParseZapLevel s
  | none => ParseZapLevel conf.level

/-- A `*zap.SugaredLogger`: `uid` is the pointer identity (every zap
derivation allocates a fresh `*SugaredLogger`), the remaining fields are the
observable state the derivations accumulate. -/
structure Sink where
  uid : Nat
  name : String := ""
  pairs : List Val := []
  callerSkip : Int := 0
  sampler : Option (Int × Int × Int) := none
deriving Repr, DecidableEq

/-- SugaredLogger.With: bind extra key/value pairs; fresh pointer `n`. -/
def Sink.withPairs (s : Sink) (kvs : List Val) (n : Nat) : Sink :=
  { s with pairs := s.pairs ++ kvs, uid := n }

/-- SugaredLogger.Named: zap joins a non-empty segment onto the current name
with "."; fresh pointer `n`. -/
def Sink.named (s : Sink) (nm : String) (n : Nat) : Sink :=
  { s with
      name := if nm = "" then s.name
              else if s.name = "" then nm else s.name ++ "." ++ nm
      uid := n }

/-- SugaredLogger.WithOptions(zap.AddCallerSkip d): fresh pointer `n`. -/
def Sink.addCallerSkip (s : Sink) (d : Int) (n : Nat) : Sink :=
  { s with callerSkip := s.callerSkip + d, uid := n }

/-- SugaredLogger.WithOptions(zap.WrapCore(NewSamplerWithOptions …)):
install a sampler (window, initial, thereafter); fresh pointer `n`. -/
def Sink.wrapSampler (s : Sink) (dur ini thr : Int) (n : Nat) : Sink :=
  { s with sampler := some (dur, ini, thr), uid := n }

/-- One dispatch into the backend sink (a `l.zap.Debugw/…` call). -/
structure Write where
  sink : Sink
  level : Int
  msg : String
  pairs : List Val
deriving Repr, DecidableEq

/-- The ZapLogger struct. `level` holds the id of the handle's AtomicLevel
cell (the Go field is the cell itself; the store lives in the shared
`RegState`, which the methods that read or resolve levels take explicitly,
playing the role of the shared `sharedConfig` pointer). -/
structure ZapLogger where
  zap : Sink
  unsampled : Sink
  component : String := ""
  level : Nat
  SampleDuration : Int := 0
  SampleInitial : Int := 0
  SampleInterval : Int := 0
deriving Repr, DecidableEq

/-- ZapLogger.isEnabled: `lvl >= l.level.Level()`. -/
def ZapLogger.isEnabled (l : ZapLogger) (st : RegState) (lvl : Int) : Bool :=
  decide (st.cells l.level ≤ lvl)

/-- ZapLogger.Debugw: gate on Debug, then dispatch to `l.zap`. -/
def ZapLogger.Debugw (l : ZapLogger) (st : RegState) (msg : String)
    (keysAndValues : List Val) : List Write :=
  if l.isEnabled st debugLevel then [⟨l.zap, debugLevel, msg, keysAndValues⟩]
  else []

/-- ZapLogger.Infow: gate on Info, then dispatch to `l.zap`. -/
def ZapLogger.Infow (l : ZapLogger) (st : RegState) (msg : String)
    (keysAndValues : List Val) : List Write :=
  if l.isEnabled st infoLevel then [⟨l.zap, infoLevel, msg, keysAndValues⟩]
  else []

/-- ZapLogger.Warnw: gate on Warn; a non-nil error is appended to the pairs
as `"error", err` before dispatch. -/
def ZapLogger.Warnw (l : ZapLogger) (st : RegState) (msg : String)
    (err : Option String) (keysAndValues : List Val) : List Write :=
  if l.isEnabled st warnLevel then
    let kvs :=
      match err with
      | some e => keysAndValues ++ [Val.str "error", Val.err e]
      | none => keysAndValues
    [⟨l.zap, warnLevel, msg, kvs⟩]
  else []

/-- ZapLogger.Errorw: gate on Error; a non-nil error is appended to the
pairs as `"error", err` before dispatch. -/
def ZapLogger.Errorw (l : ZapLogger) (st : RegState) (msg : String)
    (err : Option String) (keysAndValues : List Val) : List Write :=
  if l.isEnabled st errorLevel then
    let kvs :=
      match err with
      | some e => keysAndValues ++ [Val.str "error", Val.err e]
      | none => keysAndValues
    [⟨l.zap, errorLevel, msg, kvs⟩]
  else []

/-- ZapLogger.WithValues: copy the struct, bind the pairs on the active
sink; the unsampled sink mirrors the pairs, staying aliased to the active
sink when the source's two sinks were the same pointer. -/
def ZapLogger.WithValues (l : ZapLogger) (keysAndValues : List Val) (n : Nat) :
    ZapLogger × Nat :=
  let z := l.zap.withPairs keysAndValues n
  if l.unsampled.uid = l.zap.uid then
    ({ l with zap := z, unsampled := z }, n + 1)
  else
    ({ l with zap := z, unsampled := l.unsampled.withPairs keysAndValues (n + 1) },
     n + 2)

/-- ZapLogger.WithName: copy the struct, append the name segment on the
active sink; alias-preserving exactly like WithValues. -/
def ZapLogger.WithName (l : ZapLogger) (nm : String) (n : Nat) :
    ZapLogger × Nat :=
  let z := l.zap.named nm n
  if l.unsampled.uid = l.zap.uid then
    ({ l with zap := z, unsampled := z }, n + 1)
  else
    ({ l with zap := z, unsampled := l.unsampled.named nm (n + 1) }, n + 2)

/-- ZapLogger.WithCallDepth: copy the struct, add caller skip on the active
sink; alias-preserving exactly like WithValues. -/
def ZapLogger.WithCallDepth (l : ZapLogger) (depth : Int) (n : Nat) :
    ZapLogger × Nat :=
  let z := l.zap.addCallerSkip depth n
  if l.unsampled.uid = l.zap.uid then
    ({ l with zap := z, unsampled := z }, n + 1)
  else
    ({ l with zap := z, unsampled := l.unsampled.addCallerSkip depth (n + 1) },
     n + 2)

/-- ZapLogger.WithComponent: WithName, extend the dotted component path,
and resolve the handle's level cell for the new path in the shared registry. -/
def ZapLogger.WithComponent (l : ZapLogger) (st : RegState) (component : String)
    (n : Nat) : ZapLogger × RegState × Nat :=
  let p := l.WithName component n
  let dup := p.1
  let comp := if dup.component = "" then component
              else dup.component ++ "." ++ component
  let q := st.setEffectiveLevel comp
  ({ dup with component := comp, level := q.2 }, q.1, p.2)

/-- ZapLogger.WithItemSampler: identity when SampleDuration is zero;
otherwise the active sink is rebuilt from the unsampled sink with a sampler
parameterized by the handle's sampling fields. -/
def ZapLogger.WithItemSampler (l : ZapLogger) (n : Nat) : ZapLogger × Nat :=
  if l.SampleDuration = 0 then (l, n)
  else
    ({ l with
        zap := l.unsampled.wrapSampler l.SampleDuration l.SampleInitial
                 l.SampleInterval n },
     n + 1)

/-- ZapLogger.WithoutSampler: identity when the two sinks are already the
same pointer; otherwise the active sink is forced to the unsampled one. -/
def ZapLogger.WithoutSampler (l : ZapLogger) : ZapLogger :=
  if l.unsampled.uid = l.zap.uid then l
  else { l with zap := l.unsampled }

/-- A `logr.Logger` wrapped as `LogRLogger`: `hasSink` is whether the
underlying sink is non-nil (`logr.Discard()` has a nil sink). `logr`'s
WithCallDepth / WithName are no-ops on a nil sink. -/
structure LogRL where
  hasSink : Bool := false
  depth : Int := 0
  name : String := ""
deriving Repr, DecidableEq

/-- A value of the `Logger` interface: either a `LogRLogger` or a
`*ZapLogger`. -/
inductive LoggerI where
  | logrl : LogRL → LoggerI
  | zapl : ZapLogger → LoggerI
deriving Repr, DecidableEq

/-- `logr.Discard()` wrapped as `LogRLogger` — the initial value of both
package singletons. -/
def discardLogRL : LoggerI := .logrl {}

/-- Logger.WithCallDepth on an interface value. The LogRLogger case wraps
`logr.Logger.WithCallDepth`, which adds the skip only when a sink is
present; the ZapLogger case allocates fresh sinks from the counter. -/
def LoggerI.withCallDepthI (l : LoggerI) (depth : Int) (n : Nat) :
    LoggerI × Nat :=
  match l with
  | .logrl r =>
    (.logrl (if r.hasSink then { r with depth := r.depth + depth } else r), n)
  | .zapl z =>
    let p := z.WithCallDepth depth n
    (.zapl p.1, p.2)

/-- Logger.WithName on an interface value. `logr.Logger.WithName` renames
only when a sink is present. -/
def LoggerI.withNameI (l : LoggerI) (nm : String) (n : Nat) : LoggerI × Nat :=
  match l with
  | .logrl r =>
    (.logrl (if r.hasSink then
               { r with name := if r.name = "" then nm else r.name ++ "/" ++ nm }
             else r),
     n)
  | .zapl z =>
    let p := z.WithName nm n
    (.zapl p.1, p.2)

/-- The caller-skip offset carried by an interface value's active sink. -/
def LoggerI.callDepthOf : LoggerI → Int
  | .logrl r => r.depth
  | .zapl z => z.zap.callerSkip

/-- The accumulated name of an interface value's active sink. -/
def LoggerI.nameOf : LoggerI → String
  | .logrl r => r.name
  | .zapl z => z.zap.name

/-- The two module-scope singleton handles. -/
structure PState where
  defaultLogger : LoggerI
  pkgLogger : LoggerI
deriving Repr, DecidableEq

/-- Their initial value: both are the discard-backed LogRLogger. -/
def initialPState : PState :=
  { defaultLogger := discardLogRL, pkgLogger := discardLogRL }

/-- SetLogger: `defaultLogger = l.WithCallDepth(1).WithName(name)` and
`pkgLogger = l.WithCallDepth(2).WithName(name)`. -/
def SetLogger (ps : PState) (l : LoggerI) (name : String) (n : Nat) :
    PState × Nat :=
  let d1 := l.withCallDepthI 1 n
  let d2 := d1.1.withNameI name d1.2
  let p1 := l.withCallDepthI 2 d2.2
  let p2 := p1.1.withNameI name p1.2
  ({ ps with defaultLogger := d2.1, pkgLogger := p2.1 }, p2.2)

/-- time.Second in nanoseconds (a Go `time.Duration` is an int64 of ns). -/
def oneSecond : Int := 1000000000

/-- The successful branch of NewZapLogger: the shared config is created,
`zc.Build().Sugar()` yields the fresh unsampled sink `uid = n`, and when
`conf.Sample` is set the active sink wraps it in a sampler with a fixed
one-second window, `Initial = conf.ItemSampleInitial` (20 when zero) and
`Thereafter = conf.SampleInterval` (100 when zero); otherwise the active
sink is the unsampled sink itself. -/
def newZapLoggerOk (conf : Config) (n : Nat) : ZapLogger × RegState × Nat :=
  let sc := newSharedConfig conf
  let unsampled : Sink := { uid := n }
  let zaplog : ZapLogger :=
    { zap := unsampled
      unsampled := unsampled
      level := sc.levelCell
      SampleDuration := conf.itemSampleSeconds * oneSecond
      SampleInitial := conf.itemSampleInitial
      SampleInterval := conf.itemSampleInterval }
  if conf.sample then
    let ini := if conf.itemSampleInitial = 0 then 20 else conf.itemSampleInitial
    let thr := if conf.sampleInterval = 0 then 100 else conf.sampleInterval
    ({ zaplog with zap := unsampled.wrapSampler oneSecond ini thr (n + 1) },
     sc, n + 2)
  else
    (zaplog, sc, n + 1)

/-- NewZapLogger: `zc.Build()` is external backend construction, its outcome
is the `buildErr` parameter; a build error is returned, otherwise the logger
is assembled by `newZapLoggerOk`. -/
def NewZapLogger (conf : Config) (buildErr : Option String) (n : Nat) :
    Except String (ZapLogger × RegState × Nat) :=
  match buildErr with
  | some e => .error e
  | none => .ok (newZapLoggerOk conf n)

/-- InitLogConfig: build a ZapLogger; only when construction succeeds are
the singletons replaced through SetLogger. -/
def InitLogConfig (ps : PState) (conf : Config) (system : String)
    (buildErr : Option String) (n : Nat) : PState × Nat :=
  match NewZapLogger conf buildErr n with
  | .error _ => (ps, n)
  | .ok (l, _sc, n1) => SetLogger ps (.zapl l) system n1

/-! Concrete fixtures used by witnesses. -/

/-- A concrete sink. -/
def sinkA : Sink := { uid := 0 }

/-- Another concrete sink, distinct from `sinkA`. -/
def sinkB : Sink := { uid := 1 }

/-- A registry whose every cell reads Warn. -/
def regWarn : RegState :=
  { cells := fun _ => warnLevel, nextCell := 1, levelCell := 0,
    componentLevels := [], config := {} }

/-- A concrete handle with sampling configured and distinct sinks. -/
def hSample : ZapLogger :=
  { zap := sinkA, unsampled := sinkB, level := 0,
    SampleDuration := oneSecond, SampleInitial := 5, SampleInterval := 7 }

/-- A concrete handle whose two sink references are the same pointer. -/
def hAliased : ZapLogger := { zap := sinkA, unsampled := sinkA, level := 0 }

/-- C3: a handle whose effective severity cell currently reads Warn produces
zero backend writes for Debugw and Infow and exactly one backend write for
Warnw and Errorw. -/
theorem claim_C3_level_gating (l : ZapLogger) (st : RegState)
    (hW : st.cells l.level = warnLevel) (msg : String) (err : Option String)
    (kvs : List Val) :
    l.Debugw st msg kvs = [] ∧ l.Infow st msg kvs = [] ∧
    (l.Warnw st msg err kvs).length = 1 ∧
    (l.Errorw st msg err kvs).length = 1 := by
  refine ⟨?_, ?_, ?_, ?_⟩ <;>
    cases err <;>
      simp [ZapLogger.Debugw, ZapLogger.Infow, ZapLogger.Warnw,
        ZapLogger.Errorw, ZapLogger.isEnabled, hW, debugLevel, infoLevel,
        warnLevel, errorLevel]

/-- Witness for C3 at a concrete Warn-levelled handle. -/
theorem claim_C3_level_gating_witness :
    regWarn.cells hSample.level = warnLevel ∧
    (hSample.Debugw regWarn "m" [] = [] ∧ hSample.Infow regWarn "m" [] = [] ∧
     (hSample.Warnw regWarn "m" none []).length = 1 ∧
     (hSample.Errorw regWarn "m" none []).length = 1) :=
  ⟨by decide, claim_C3_level_gating hSample regWarn (by decide) "m" none []⟩

/-- C4: for a handle with `SampleDuration ≠ 0`,
`WithItemSampler` then `WithoutSampler` yields a handle whose active sink is
pointer-identical to the original unsampled sink, and whose unsampled sink
is the original unsampled sink as well. (`n` is the fresh-pointer counter,
larger than the uid of every live sink.) -/
theorem claim_C4_sampler_round_trip (h : ZapLogger) (n : Nat)
    (hd : h.SampleDuration ≠ 0) (hf : h.unsampled.uid < n) :
    ((h.WithItemSampler n).1.WithoutSampler).zap = h.unsampled ∧
    ((h.WithItemSampler n).1.WithoutSampler).unsampled = h.unsampled := by
  have hne : h.unsampled.uid ≠ n := Nat.ne_of_lt hf
  simp [ZapLogger.WithItemSampler, ZapLogger.WithoutSampler,
    Sink.wrapSampler, hd, hne]

/-- Witness for C4 at a concrete sampling-enabled handle. -/
theorem claim_C4_sampler_round_trip_witness :
    (hSample.SampleDuration ≠ 0 ∧ hSample.unsampled.uid < 5) ∧
    (((hSample.WithItemSampler 5).1.WithoutSampler).zap = hSample.unsampled ∧
     ((hSample.WithItemSampler 5).1.WithoutSampler).unsampled = hSample.unsampled) :=
  ⟨⟨by decide, by decide⟩,
   claim_C4_sampler_round_trip hSample 5 (by decide) (by decide)⟩

/-- C6: `WithValues` is a pure derivation — the new pairs are bound on the
derived handle's sink only, while the original handle's log calls still
dispatch with the original handle's own sink (and its original pairs). -/
theorem claim_C6_derivation_purity (h1 : ZapLogger) (vs : List Val) (n : Nat)
    (st : RegState) (msg : String) (ps : List Val) :
    ((h1.WithValues vs n).1.zap.pairs = h1.zap.pairs ++ vs) ∧
    h1.Infow st msg ps =
      (if h1.isEnabled st infoLevel then [⟨h1.zap, infoLevel, msg, ps⟩]
       else []) := by
  constructor
  · by_cases hc : h1.unsampled.uid = h1.zap.uid <;>
      simp [ZapLogger.WithValues, Sink.withPairs, hc]
  · rfl

/-- C7: the derivation operations WithValues, WithName and WithCallDepth
preserve aliasing of the sampled and unsampled sink references. -/
theorem claim_C7_alias_preserved (h : ZapLogger) (vs : List Val) (nm : String)
    (d : Int) (n : Nat) (hal : h.unsampled = h.zap) :
    ((h.WithValues vs n).1.unsampled = (h.WithValues vs n).1.zap) ∧
    ((h.WithName nm n).1.unsampled = (h.WithName nm n).1.zap) ∧
    ((h.WithCallDepth d n).1.unsampled = (h.WithCallDepth d n).1.zap) := by
  refine ⟨?_, ?_, ?_⟩ <;>
    simp [ZapLogger.WithValues, ZapLogger.WithName, ZapLogger.WithCallDepth,
      hal]

/-- Witness for C7 at a concrete aliased handle. -/
theorem claim_C7_alias_preserved_witness :
    hAliased.unsampled = hAliased.zap ∧
    (((hAliased.WithValues [] 5).1.unsampled = (hAliased.WithValues [] 5).1.zap) ∧
     ((hAliased.WithName "x" 5).1.unsampled = (hAliased.WithName "x" 5).1.zap) ∧
     ((hAliased.WithCallDepth 1 5).1.unsampled
        = (hAliased.WithCallDepth 1 5).1.zap)) :=
  ⟨by decide, claim_C7_alias_preserved hAliased [] "x" 1 5 (by decide)⟩

/-- C8: when the effective level enables the call, Warnw and Errorw dispatch
the caller's pairs with `"error", err` appended exactly when the error is
non-nil, and unchanged when it is nil. -/
theorem claim_C8_error_append (h : ZapLogger) (st : RegState) (msg : String)
    (e : String) (ps : List Val) (hw : h.isEnabled st warnLevel = true)
    (he : h.isEnabled st errorLevel = true) :
    h.Warnw st msg (some e) ps =
      [⟨h.zap, warnLevel, msg, ps ++ [Val.str "error", Val.err e]⟩] ∧
    h.Warnw st msg none ps = [⟨h.zap, warnLevel, msg, ps⟩] ∧
    h.Errorw st msg (some e) ps =
      [⟨h.zap, errorLevel, msg, ps ++ [Val.str "error", Val.err e]⟩] ∧
    h.Errorw st msg none ps = [⟨h.zap, errorLevel, msg, ps⟩] := by
  refine ⟨?_, ?_, ?_, ?_⟩ <;> simp [ZapLogger.Warnw, ZapLogger.Errorw, hw, he]

/-- Witness for C8 at a concrete Warn-levelled handle. -/
theorem claim_C8_error_append_witness :
    (hSample.isEnabled regWarn warnLevel = true ∧
     hSample.isEnabled regWarn errorLevel = true) ∧
    (hSample.Warnw regWarn "m" (some "boom") [Val.str "k"] =
       [⟨hSample.zap, warnLevel, "m",
         [Val.str "k", Val.str "error", Val.err "boom"]⟩] ∧
     hSample.Warnw regWarn "m" none [Val.str "k"] =
       [⟨hSample.zap, warnLevel, "m", [Val.str "k"]⟩] ∧
     hSample.Errorw regWarn "m" (some "boom") [Val.str "k"] =
       [⟨hSample.zap, errorLevel, "m",
         [Val.str "k", Val.str "error", Val.err "boom"]⟩] ∧
     hSample.Errorw regWarn "m" none [Val.str "k"] =
       [⟨hSample.zap, errorLevel, "m", [Val.str "k"]⟩]) :=
  ⟨⟨by decide, by decide⟩,
   claim_C8_error_append hSample regWarn "m" "boom" [Val.str "k"]
     (by decide) (by decide)⟩

/-- C10: with Sample enabled, NewZapLogger installs on the default sink a
sampler with a fixed one-second window, initial burst 20 when the configured
initial burst is 0, and steady interval 100 when the configured steady
interval is 0; with Sample disabled the sampled and unsampled sink
references of the handle are identical. -/
theorem claim_C10_sampler_defaults (conf : Config) (n : Nat) :
    (conf.sample = true →
      (newZapLoggerOk conf n).1.zap.sampler =
        some (oneSecond,
          (if conf.itemSampleInitial = 0 then 20 else conf.itemSampleInitial),
          (if conf.sampleInterval = 0 then 100 else conf.sampleInterval))) ∧
    (conf.sample = false →
      (newZapLoggerOk conf n).1.zap = (newZapLoggerOk conf n).1.unsampled) := by
  constructor <;> intro hs <;> simp [newZapLoggerOk, Sink.wrapSampler, hs]

/-- Witness for C10: one config with sampling on (zero burst/interval), one
with sampling off. -/
theorem claim_C10_sampler_defaults_witness :
    ((newZapLoggerOk { sample := true } 0).1.zap.sampler =
       some (oneSecond, 20, 100)) ∧
    ((newZapLoggerOk { sample := false } 0).1.zap =
       (newZapLoggerOk { sample := false } 0).1.unsampled) :=
  ⟨by
     have h := (claim_C10_sampler_defaults { sample := true } 0).1 rfl
     simpa using h,
   (claim_C10_sampler_defaults { sample := false } 0).2 rfl⟩

/-- C9: a failed backend construction makes InitLogConfig leave both
singletons (initially the discard-backed no-op handles) unchanged; a
successful construction replaces them through SetLogger. -/
theorem claim_C9_init_failure (ps : PState) (conf : Config) (system : String)
    (e : String) (n : Nat) :
    InitLogConfig ps conf system (some e) n = (ps, n) ∧
    InitLogConfig ps conf system none n =
      SetLogger ps (.zapl (newZapLoggerOk conf n).1) system
        (newZapLoggerOk conf n).2.2 ∧
    initialPState.defaultLogger = discardLogRL ∧
    initialPState.pkgLogger = discardLogRL :=
  ⟨rfl, rfl, rfl, rfl⟩

/-- A concrete handle with zero caller skip on its sinks. -/
def hDepthZero : ZapLogger := { zap := sinkA, unsampled := sinkB, level := 0 }

/-- C5 counterexample: on a handle whose sink has caller skip 0, SetLogger
does NOT install a default handle with caller-depth offset 0 — the default
singleton gets offset 1 (the package one gets 2). -/
theorem claim_C5_counterexample :
    ¬ (((SetLogger initialPState (.zapl hDepthZero) "sys" 10).1.defaultLogger.callDepthOf
          = 0) ∧
       ((SetLogger initialPState (.zapl hDepthZero) "sys" 10).1.pkgLogger.callDepthOf
          = 2)) := by
  decide

/-- C5 (amended): SetLogger replaces both singletons, installing a default
handle with caller-depth offset 1 and a package handle with caller-depth
offset 2 (an extra +1 relative to the default), both tagged with `name`. -/
theorem claim_C5_amended (ps : PState) (z : ZapLogger) (name : String)
    (n : Nat) :
    (SetLogger ps (.zapl z) name n).1.defaultLogger.callDepthOf
        = z.zap.callerSkip + 1 ∧
    (SetLogger ps (.zapl z) name n).1.pkgLogger.callDepthOf
        = z.zap.callerSkip + 2 ∧
    (SetLogger ps (.zapl z) name n).1.defaultLogger.nameOf
        = (if name = "" then z.zap.name
           else if z.zap.name = "" then name
           else z.zap.name ++ "." ++ name) ∧
    (SetLogger ps (.zapl z) name n).1.pkgLogger.nameOf
        = (if name = "" then z.zap.name
           else if z.zap.name = "" then name
           else z.zap.name ++ "." ++ name) := by
  by_cases hc : z.unsampled.uid = z.zap.uid <;>
    simp [SetLogger, LoggerI.withCallDepthI, LoggerI.withNameI,
      LoggerI.callDepthOf, LoggerI.nameOf, ZapLogger.WithCallDepth,
      ZapLogger.WithName, Sink.addCallerSkip, Sink.named, hc]

/-- The reload loop never touches a cell that is not among the iterated
cell ids. -/
theorem foldl_reloadStep_cells_of_notin (conf : Config)
    (L : List (String × Nat)) (acc : RegState) (i : Nat)
    (hi : i ∉ L.map Prod.snd) :
    (L.foldl (reloadStep conf) acc).cells i = acc.cells i := by
  induction L generalizing acc with
  | nil => rfl
  | cons hd tl ih =>
    simp only [List.map_cons, List.mem_cons, not_or] at hi
    rw [List.foldl_cons, ih _ hi.2]
    simp [reloadStep, RegState.setCell, hi.1]

/-- The reload loop leaves the id of the global cell unchanged. -/
theorem foldl_reloadStep_levelCell (conf : Config) (L : List (String × Nat))
    (acc : RegState) :
    (L.foldl (reloadStep conf) acc).levelCell = acc.levelCell := by
  induction L generalizing acc with
  | nil => rfl
  | cons hd tl ih => rw [List.foldl_cons, ih]; rfl

/-- Effect of the reload loop on the cell of an iterated component: as long
as the cell ids are pairwise distinct and the global cell is not among them,
the component's cell ends at the level of its most specific configured
ancestor in `conf`, defaulting to the (stable) value of the global cell. -/
theorem foldl_reloadStep_resolves (conf : Config) (L : List (String × Nat))
    (acc : RegState) (comp : String) (cid : Nat) (hmem : (comp, cid) ∈ L)
    (hnd : (L.map Prod.snd).Nodup) (hlc : acc.levelCell ∉ L.map Prod.snd) :
    (L.foldl (reloadStep conf) acc).cells cid =
      match searchAncestor conf.componentLevels (splitDot comp) with
      | some s => ParseZapLevel s
      | none => acc.cells acc.levelCell := by
  induction L generalizing acc with
  | nil => cases hmem
  | cons hd tl ih =>
    simp only [List.map_cons, List.nodup_cons] at hnd
    simp only [List.map_cons, List.mem_cons, not_or] at hlc
    rcases List.mem_cons.mp hmem with heq | hmem'
    · subst heq
      rw [List.foldl_cons,
        foldl_reloadStep_cells_of_notin conf tl _ cid hnd.1]
      cases hs : searchAncestor conf.componentLevels (splitDot comp) <;>
        simp [reloadStep, RegState.setCell, hs]
    · rw [List.foldl_cons]
      have hstep : (reloadStep conf acc hd).cells (reloadStep conf acc hd).levelCell
          = acc.cells acc.levelCell := by
        simp [reloadStep, RegState.setCell, hlc.1]
      have hstepl : (reloadStep conf acc hd).levelCell = acc.levelCell := rfl
      rw [ih _ hmem' hnd.2 (hstepl ▸ hlc.2), hstep]

/-- C1: the first call to setEffectiveLevel for a component returns a cell
reading the parsed level of the most specific configured entry among the
full dotted path and its dot-stripped ancestors, and reading the registry's
current global default severity when no entry matches. -/
theorem claim_C1_first_resolution (st : RegState) (component : String)
    (hnew : st.componentLevels.lookup component = none) :
    (st.setEffectiveLevel component).1.cells (st.setEffectiveLevel component).2 =
      match searchAncestor st.config.componentLevels (splitDot component) with
      | some s => ParseZapLevel s
      | none => st.cells st.levelCell := by
  unfold RegState.setEffectiveLevel
  rw [hnew]
  cases hs : searchAncestor st.config.componentLevels (splitDot component) <;>
    simp [RegState.alloc, RegState.setCell, hs]

/-- A config mapping component "a.b" to Warn. -/
def confAB : Config := { level := "info", componentLevels := [("a.b", "warn")] }

/-- Witness for C1: with `{"a.b" ↦ warn}` configured, the first resolution
of "a.b.c" reads Warn (the ancestor match). -/
theorem claim_C1_first_resolution_witness :
    (newSharedConfig confAB).componentLevels.lookup "a.b.c" = none ∧
    ((newSharedConfig confAB).setEffectiveLevel "a.b.c").1.cells
        ((newSharedConfig confAB).setEffectiveLevel "a.b.c").2 = warnLevel :=
  ⟨by decide,
   (claim_C1_first_resolution (newSharedConfig confAB) "a.b.c"
      (by decide)).trans (by decide)⟩

/-- C2: after onConfigUpdate every previously cached component cell reads
the severity resolved against the new configuration — the parsed level of
its most specific configured ancestor, else the new parsed global default.
The hypotheses state the registry invariants: each cached component has its
own cell, distinct from the global cell. -/
theorem claim_C2_reload_recompute (st : RegState) (conf : Config)
    (comp : String) (cid : Nat) (hmem : (comp, cid) ∈ st.componentLevels)
    (hnd : (st.componentLevels.map Prod.snd).Nodup)
    (hlc : st.levelCell ∉ st.componentLevels.map Prod.snd) :
    (onConfigUpdate st conf).cells cid = resolveLevelPure conf comp := by
  have h := foldl_reloadStep_resolves conf st.componentLevels
    { st.setCell st.levelCell (ParseZapLevel conf.level) with config := conf }
    comp cid hmem hnd hlc
  have he : onConfigUpdate st conf =
      List.foldl (reloadStep conf)
        { st.setCell st.levelCell (ParseZapLevel conf.level) with config := conf }
        st.componentLevels := rfl
  rw [he, h]
  unfold resolveLevelPure
  cases hs : searchAncestor conf.componentLevels (splitDot comp) <;>
    simp [RegState.setCell, hs]

/-- The configuration before the reload: no component entries. -/
def confSvc1 : Config := { level := "info" }

/-- The configuration after the reload: "svc" is pinned to Error. -/
def confSvc2 : Config := { level := "info", componentLevels := [("svc", "error")] }

/-- A registry that cached a cell for "svc.a" under `confSvc1`. -/
def regSvc : RegState := ((newSharedConfig confSvc1).setEffectiveLevel "svc.a").1

/-- Witness for C2: the cached cell for "svc.a" resolved to Info under
`confSvc1` and reads Error after the reload to `confSvc2`. -/
theorem claim_C2_reload_recompute_witness :
    (("svc.a", 1) ∈ regSvc.componentLevels ∧
     (regSvc.componentLevels.map Prod.snd).Nodup ∧
     regSvc.levelCell ∉ regSvc.componentLevels.map Prod.snd ∧
     regSvc.cells 1 = infoLevel) ∧
    (onConfigUpdate regSvc confSvc2).cells 1 = errorLevel :=
  ⟨⟨by decide, by decide, by decide, by decide⟩,
   (claim_C2_reload_recompute regSvc confSvc2 "svc.a" 1 (by decide) (by decide)
      (by decide)).trans (by decide)⟩

end Protocol
